import Mathlib

/-!
Verification development for the raffle settlement core of the
f2re/raffle-telegram-bot repository.

The embedding below is a shallow model of the Python sources:

* Python floats stored in the database (entry fees, commission percents,
  transaction amounts) are modelled as exact rationals; Python's built-in
  round (banker's rounding) and int (truncation toward zero) are modelled
  on rationals accordingly.
* Database tables are modelled as in-memory lists of rows, SQL queries as
  filters and stable sorts over those lists.
* Fallible steps (the randomness oracle, Telegram API calls) are modelled
  with Except / Bool success flags passed in explicitly.
* Python's stable sort (list.sort) and SQL ORDER BY are modelled by
  List.insertionSort, which is also stable.
-/

/-- Currency enumeration from app/database/models.py (CurrencyType). -/
inductive CurrencyType where
  | stars
  | rub
  | ton
  deriving DecidableEq

/-- Raffle lifecycle states from app/database/models.py (RaffleStatus). -/
inductive RaffleStatus where
  | pending
  | active
  | finished
  | cancelled
  deriving DecidableEq

/-- Transaction kinds from app/database/models.py (TransactionType). -/
inductive TransactionType where
  | deposit
  | withdrawal
  | raffleEntry
  | raffleWin
  | refund
  deriving DecidableEq

/-- Transaction states from app/database/models.py (TransactionStatus). -/
inductive TransactionStatus where
  | pending
  | completed
  | failed
  | cancelled
  deriving DecidableEq

/-- Python's built-in round to the nearest integer: ties go to the even
integer (banker's rounding). -/
def pyRound (x : ℚ) : ℤ :=
  if x - ⌊x⌋ < 1 / 2 then ⌊x⌋
  else if 1 / 2 < x - ⌊x⌋ then ⌊x⌋ + 1
  else if 2 ∣ ⌊x⌋ then ⌊x⌋ else ⌊x⌋ + 1

/-- Python's round(x, 2): rounding to two decimal digits, ties to even. -/
def pyRound2 (x : ℚ) : ℚ := (pyRound (x * 100) : ℚ) / 100

/-- Python's built-in int() on a number: truncation toward zero. -/
def pyTrunc (x : ℚ) : ℤ := if 0 ≤ x then ⌊x⌋ else ⌈x⌉

/-- Model of round_rub_amount from app/utils.py: int(round(amount)),
rounding a ruble amount to whole rubles. -/
def round_rub_amount (amount : ℚ) : ℤ := pyRound amount

/-- Result of the prize/commission split computed inside execute_raffle. -/
structure Settlement where
  total_collected : ℚ
  commission : ℚ
  prize : ℚ
  deriving DecidableEq

/-- Model of the settlement arithmetic of execute_raffle
(app/handlers/raffle.py, lines 648-661): total collected is the entry fee
times the participant count; stars use integer arithmetic via int(), other
currencies use round(_, 2); for RUB the prize is afterwards rounded to
whole rubles by round_rub_amount. -/
def raffleSettlement (entry_fee_amount : ℚ) (entry_fee_type : CurrencyType)
    (commission_percent : ℚ) (participant_count : ℕ) : Settlement :=
  let total_collected : ℚ := entry_fee_amount * participant_count
  if entry_fee_type = CurrencyType.stars then
    let commission : ℤ := pyTrunc (total_collected * commission_percent / 100)
    let prize : ℤ := pyTrunc total_collected - commission
    ⟨total_collected, (commission : ℚ), (prize : ℚ)⟩
  else
    let commission : ℚ := pyRound2 (total_collected * (commission_percent / 100))
    let prize0 : ℚ := pyRound2 (total_collected - commission)
    let prize : ℚ :=
      if entry_fee_type = CurrencyType.rub then (round_rub_amount prize0 : ℚ) else prize0
    ⟨total_collected, commission, prize⟩

/-- Row of the transactions table (app/database/models.py, Transaction) as
seen by the refund engine. Timestamps are integers (seconds); amounts are
rationals since the column is a Float. -/
structure StarTx where
  id : ℕ
  user_id : ℕ
  type : TransactionType
  amount : ℚ
  currency : CurrencyType
  status : TransactionStatus
  payment_id : Option String
  created_at : ℤ
  deriving DecidableEq

/-- Truthiness of an optional string in Python: None and the empty string
are falsy. Used for the if tx.payment_id check. -/
def pyTruthyStr : Option String → Bool
  | none => false
  | some s => !s.isEmpty

/-- One entry of the successful_refunds / failed_refunds lists built by
process_withdrawal_with_multiple_refunds (the created_at / error metadata
fields are omitted). -/
structure RefundRecord where
  transaction_id : ℕ
  payment_id : Option String
  amount : ℤ
  deriving DecidableEq

/-- State of the refund loop of process_withdrawal_with_multiple_refunds
before the refund_rate is attached. -/
structure RefundLoopOut where
  total_refunded : ℤ
  remaining : ℤ
  successful_refunds : List RefundRecord
  failed_refunds : List RefundRecord
  deriving DecidableEq

/-- Result dictionary of process_withdrawal_with_multiple_refunds. -/
structure RefundResult where
  total_refunded : ℤ
  remaining : ℤ
  successful_refunds : List RefundRecord
  failed_refunds : List RefundRecord
  refund_rate : ℚ
  deriving DecidableEq

/-- Model of the walk over eligible transactions in
process_withdrawal_with_multiple_refunds (app/services/stars_service.py,
lines 236-287): stop once remaining is not positive; a charge not larger
than the remaining amount is reversed in full (its amount truncated to an
integer is added to total_refunded and subtracted from remaining) when the
Telegram refund call succeeds, recorded as failed when it raises; a larger
charge is skipped. The refundOk argument models the outcome of
bot.refund_star_payment per transaction id. -/
def refundLoop (refundOk : ℕ → Bool) :
    List StarTx → ℤ → ℤ → RefundLoopOut
  | [], total_refunded, remaining => ⟨total_refunded, remaining, [], []⟩
  | tx :: rest, total_refunded, remaining =>
    if remaining ≤ 0 then ⟨total_refunded, remaining, [], []⟩
    else if tx.amount ≤ (remaining : ℚ) then
      if refundOk tx.id then
        let refunded := pyTrunc tx.amount
        let out := refundLoop refundOk rest (total_refunded + refunded) (remaining - refunded)
        ⟨out.total_refunded, out.remaining,
          ⟨tx.id, tx.payment_id, refunded⟩ :: out.successful_refunds, out.failed_refunds⟩
      else
        let out := refundLoop refundOk rest total_refunded remaining
        ⟨out.total_refunded, out.remaining, out.successful_refunds,
          ⟨tx.id, tx.payment_id, pyTrunc tx.amount⟩ :: out.failed_refunds⟩
    else
      refundLoop refundOk rest total_refunded remaining

/-- Refund window of StarsService: Telegram allows refunds within 21 days. -/
def refundWindowDays : ℤ := 21

/-- Seconds in a day, to express timedelta(days=21) on integer timestamps. -/
def secondsPerDay : ℤ := 86400

/-- Cutoff datetime.utcnow() - timedelta(days=REFUND_WINDOW_DAYS). -/
def refundCutoff (now : ℤ) : ℤ := now - refundWindowDays * secondsPerDay

/-- Eligibility filter of process_withdrawal_with_multiple_refunds, lines
219-224: the charge must have a truthy payment_id, lie within the refund
window and have positive amount. -/
def eligibleForRefund (now : ℤ) (tx : StarTx) : Bool :=
  pyTruthyStr tx.payment_id && decide (refundCutoff now ≤ tx.created_at) &&
    decide (0 < tx.amount)

/-- Python's stable list.sort(key=created_at, reverse=True): newest first. -/
def newestFirst (txs : List StarTx) : List StarTx :=
  List.insertionSort (fun a b => b.created_at ≤ a.created_at) txs

/-- Model of StarsService.process_withdrawal_with_multiple_refunds
(app/services/stars_service.py, lines 181-303): filter eligible charges,
sort them newest first, walk them with refundLoop, and attach the
refund_rate with its explicit guard against a zero withdrawal_amount. -/
def process_withdrawal_with_multiple_refunds (refundOk : ℕ → Bool)
    (withdrawal_amount : ℤ) (transactions : List StarTx) (now : ℤ) : RefundResult :=
  let eligible := transactions.filter (eligibleForRefund now)
  let sorted := newestFirst eligible
  let out := refundLoop refundOk sorted 0 withdrawal_amount
  ⟨out.total_refunded, out.remaining, out.successful_refunds, out.failed_refunds,
    if 0 < withdrawal_amount then
      (out.total_refunded : ℚ) / (withdrawal_amount : ℚ) * 100
    else 0⟩

/-- Model of the star_transactions query run by the withdrawal-approval
handler (app/handlers/admin.py, lines 585-597) before it calls the refund
engine: completed star entry-fee charges of the user with a payment_id,
within the 21-day window, ordered by created_at descending. -/
def star_transactions_query (txs : List StarTx) (userId : ℕ) (now : ℤ) : List StarTx :=
  List.insertionSort (fun a b => b.created_at ≤ a.created_at)
    (txs.filter (fun t =>
      decide (t.user_id = userId) && decide (t.currency = CurrencyType.stars) &&
      decide (t.type = TransactionType.raffleEntry) &&
      decide (t.status = TransactionStatus.completed) &&
      t.payment_id.isSome && decide (refundCutoff now ≤ t.created_at)))

/-- The refund reconciliation engine as wired up in admin.py: the DB query
feeding process_withdrawal_with_multiple_refunds. -/
def approveStarWithdrawal (refundOk : ℕ → Bool) (withdrawal_amount : ℤ)
    (txs : List StarTx) (userId : ℕ) (now : ℤ) : RefundResult :=
  process_withdrawal_with_multiple_refunds refundOk withdrawal_amount
    (star_transactions_query txs userId now) now

/-- The list of charges the engine actually walks, in walk order. -/
def consideredCharges (txs : List StarTx) (userId : ℕ) (now : ℤ) : List StarTx :=
  newestFirst ((star_transactions_query txs userId now).filter (eligibleForRefund now))

/-- Row of the users table (app/database/models.py, User), restricted to
the columns the settlement core touches. -/
structure UserRow where
  id : ℕ
  telegram_id : ℤ
  balance_stars : ℤ
  balance_rub : ℚ
  ton_wallet_address : Option String
  deriving DecidableEq

/-- Row of the raffles table (app/database/models.py, Raffle). The JSON
random_result payload is abstracted to the drawn number. -/
structure RaffleRow where
  id : ℕ
  min_participants : ℕ
  max_participants : Option ℕ
  entry_fee_type : CurrencyType
  entry_fee_amount : ℚ
  commission_percent : ℚ
  status : RaffleStatus
  started_at : Option ℤ
  finished_at : Option ℤ
  winner_id : Option ℕ
  random_result : Option ℤ
  prize_amount : Option ℚ
  deriving DecidableEq

/-- Row of the participants table (app/database/models.py, Participant). -/
structure ParticipantRow where
  raffle_id : ℕ
  user_id : ℕ
  transaction_id : Option ℕ
  participant_number : ℕ
  deriving DecidableEq

/-- Row of the transactions table (app/database/models.py, Transaction),
including the transaction_hash column used by the TON monitor. -/
structure TxRow where
  id : ℕ
  user_id : ℕ
  type : TransactionType
  amount : ℚ
  currency : CurrencyType
  status : TransactionStatus
  payment_id : Option String
  transaction_hash : Option String
  deriving DecidableEq

/-- Row of the payout_requests table (app/database/models.py,
PayoutRequest), restricted to the columns the payout flow reads. -/
structure PayoutRequestRow where
  raffle_id : ℕ
  winner_id : ℕ
  amount : ℚ
  currency : CurrencyType
  completed : Bool
  deriving DecidableEq

/-- In-memory model of the persistent store. -/
structure Db where
  users : List UserRow
  raffles : List RaffleRow
  participants : List ParticipantRow
  transactions : List TxRow
  payout_requests : List PayoutRequestRow
  deriving DecidableEq

/-- Model of crud.get_raffle_by_id. -/
def get_raffle_by_id (db : Db) (raffle_id : ℕ) : Option RaffleRow :=
  db.raffles.find? (fun r => decide (r.id = raffle_id))

/-- Model of crud.get_raffle_participants (app/database/crud.py, lines
205-216): all participants of the raffle ordered by participant_number. -/
def get_raffle_participants (db : Db) (raffle_id : ℕ) : List ParticipantRow :=
  List.insertionSort (fun a b => a.participant_number ≤ b.participant_number)
    (db.participants.filter (fun p => decide (p.raffle_id = raffle_id)))

/-- Model of crud.update_raffle_status (app/database/crud.py, lines
125-143): set the status, stamping started_at on the first transition to
Active and finished_at on the first transition to Finished. -/
def update_raffle_status (db : Db) (raffle_id : ℕ) (status : RaffleStatus)
    (now : ℤ) : Db :=
  { db with raffles := db.raffles.map (fun r =>
      if r.id = raffle_id then
        { r with
          status := status
          started_at :=
            if status = RaffleStatus.active ∧ r.started_at = none then some now
            else r.started_at
          finished_at :=
            if status = RaffleStatus.finished ∧ r.finished_at = none then some now
            else r.finished_at }
      else r) }

/-- Model of crud.set_raffle_winner (app/database/crud.py, lines 146-165):
record winner, random result and prize, and move to Finished. -/
def set_raffle_winner (db : Db) (raffle_id : ℕ) (winner_id : ℕ)
    (random_result : ℤ) (prize_amount : ℚ) (now : ℤ) : Db :=
  { db with raffles := db.raffles.map (fun r =>
      if r.id = raffle_id then
        { r with
          winner_id := some winner_id
          random_result := some random_result
          prize_amount := some prize_amount
          status := RaffleStatus.finished
          finished_at := some now }
      else r) }

/-- Model of crud.add_participant (app/database/crud.py, lines 170-202):
reject a duplicate (raffle, user) pair, otherwise assign the next
participant_number as the current count plus one. -/
def add_participant (db : Db) (raffle_id : ℕ) (user_id : ℕ)
    (transaction_id : Option ℕ) : Except String (Db × ParticipantRow) :=
  if (db.participants.filter (fun p =>
      decide (p.raffle_id = raffle_id) && decide (p.user_id = user_id))).isEmpty then
    let participant_number :=
      (db.participants.filter (fun p => decide (p.raffle_id = raffle_id))).length + 1
    let p : ParticipantRow := ⟨raffle_id, user_id, transaction_id, participant_number⟩
    Except.ok ({ db with participants := db.participants ++ [p] }, p)
  else Except.error "User already participating in this raffle"

/-- Model of crud.create_transaction (app/database/crud.py, lines
237-260): a fresh row with Pending status; the function has no
transaction_hash parameter, so the hash column is always left empty. -/
def create_transaction (db : Db) (user_id : ℕ) (type : TransactionType)
    (amount : ℚ) (currency : CurrencyType) (payment_id : Option String) :
    Db × TxRow :=
  let t : TxRow := ⟨db.transactions.length + 1, user_id, type, amount, currency,
    TransactionStatus.pending, payment_id, none⟩
  ({ db with transactions := db.transactions ++ [t] }, t)

/-- Model of crud.update_user_balance (app/database/crud.py, lines 59-76):
stars are credited as int(amount) to balance_stars, every other currency
is added to balance_rub. -/
def update_user_balance (db : Db) (user_id : ℕ) (amount : ℚ)
    (currency : CurrencyType) : Db :=
  { db with users := db.users.map (fun u =>
      if u.id = user_id then
        if currency = CurrencyType.stars then
          { u with balance_stars := u.balance_stars + pyTrunc amount }
        else { u with balance_rub := u.balance_rub + amount }
      else u) }

/-- Model of crud.create_payout_request. -/
def create_payout_request (db : Db) (raffle_id : ℕ) (winner_id : ℕ)
    (amount : ℚ) (currency : CurrencyType) : Db :=
  { db with payout_requests :=
      db.payout_requests ++ [⟨raffle_id, winner_id, amount, currency, false⟩] }

/-- Python list indexing with its negative-index convention; None stands
for IndexError. -/
def pythonIndex {α : Type} (xs : List α) (i : ℤ) : Option α :=
  if 0 ≤ i then xs[i.toNat]?
  else if 0 ≤ (xs.length : ℤ) + i then xs[((xs.length : ℤ) + i).toNat]?
  else none

/-- Outcome of one call to execute_raffle. -/
inductive ExecOutcome where
  | invalidStatus
  | notEnoughParticipants
  | oracleFailed
  | indexError
  | postFailed
  | completed (winner_user : ℕ) (prize : ℚ)
  deriving DecidableEq

/-- Result of execute_raffle: the updated store, whether the randomness
oracle was contacted, and how the call ended. -/
structure ExecResult where
  db : Db
  oracleCalled : Bool
  outcome : ExecOutcome
  deriving DecidableEq

/-- Model of execute_raffle (app/handlers/raffle.py, lines 615-795).
Parameters beyond the store: the oracle outcome (Except models a
RandomOrgError), adminOk (whether settings.get_admin_ids() is nonempty on
the stars/RUB payout path), postOk (whether the notification phase after
settlement raises), and the clock. Guards: missing raffle or status other
than Pending, or too few participants, return without contacting the
oracle. After the Pending-to-Active transition, an oracle error, an
out-of-range draw (IndexError) or a post-settlement exception roll the
status back to Pending. The TON payout branch records nothing because
handle_ton_payout swallows its own exceptions (and its create_transaction
call passes a transaction_hash argument crud.create_transaction does not
accept, so it always fails). -/
def execute_raffle (db : Db) (raffle_id : ℕ) (oracle : Except Unit ℤ)
    (adminOk postOk : Bool) (now : ℤ) : ExecResult :=
  match get_raffle_by_id db raffle_id with
  | none => ⟨db, false, ExecOutcome.invalidStatus⟩
  | some raffle =>
    if raffle.status ≠ RaffleStatus.pending then ⟨db, false, ExecOutcome.invalidStatus⟩
    else
      let participants := get_raffle_participants db raffle_id
      if participants.length < raffle.min_participants then
        ⟨db, false, ExecOutcome.notEnoughParticipants⟩
      else
        let db1 := update_raffle_status db raffle_id RaffleStatus.active now
        match oracle with
        | Except.error _ =>
          ⟨update_raffle_status db1 raffle_id RaffleStatus.pending now, true,
            ExecOutcome.oracleFailed⟩
        | Except.ok num =>
          match pythonIndex participants (num - 1) with
          | none =>
            ⟨update_raffle_status db1 raffle_id RaffleStatus.pending now, true,
              ExecOutcome.indexError⟩
          | some wp =>
            let s := raffleSettlement raffle.entry_fee_amount raffle.entry_fee_type
              raffle.commission_percent participants.length
            let db2 := set_raffle_winner db1 raffle_id wp.user_id num s.prize now
            if raffle.entry_fee_type = CurrencyType.ton then
              if postOk then ⟨db2, true, ExecOutcome.completed wp.user_id s.prize⟩
              else
                ⟨update_raffle_status db2 raffle_id RaffleStatus.pending now, true,
                  ExecOutcome.postFailed⟩
            else
              if adminOk then
                let db3 := create_payout_request db2 raffle_id wp.user_id s.prize
                  raffle.entry_fee_type
                if postOk then ⟨db3, true, ExecOutcome.completed wp.user_id s.prize⟩
                else
                  ⟨update_raffle_status db3 raffle_id RaffleStatus.pending now, true,
                    ExecOutcome.postFailed⟩
              else
                ⟨update_raffle_status db2 raffle_id RaffleStatus.pending now, true,
                  ExecOutcome.postFailed⟩

/-- Python str.split(sep) on a list of characters (empty pieces kept). -/
def splitChars (sep : Char) : List Char → List (List Char)
  | [] => [[]]
  | c :: rest =>
    let r := splitChars sep rest
    if c = sep then [] :: r
    else
      match r with
      | [] => [[c]]
      | g :: gs => (c :: g) :: gs

/-- Python str.strip() on a list of characters. -/
def stripChars (l : List Char) : List Char :=
  ((l.dropWhile Char.isWhitespace).reverse.dropWhile Char.isWhitespace).reverse

/-- Python int() restricted to the nonnegative decimal digit strings the
raffle tag grammar produces. -/
def decDigits? (l : List Char) : Option ℕ :=
  if l.isEmpty then none
  else if l.all Char.isDigit then
    some (l.foldl (fun n c => 10 * n + (c.toNat - Char.toNat (Char.ofNat 48))) 0)
  else none

/-- Model of TonService.parse_payment_comment (app/services/ton_service.py,
lines 488-508): strip the comment, split on underscores, and accept
exactly raffle_<id>_user_<id> with decimal ids. -/
def parse_payment_comment (comment : String) : Option (ℕ × ℕ) :=
  match splitChars (Char.ofNat 95) (stripChars comment.data) with
  | [a, b, c, d] =>
    if a = "raffle".data ∧ c = "user".data then
      match decDigits? b, decDigits? d with
      | some raffle_id, some user_id => some (raffle_id, user_id)
      | _, _ => none
    else none
  | _ => none

/-- Incoming ledger event delivered to the monitor by
ton_service.check_incoming_transactions. -/
structure TonEvent where
  hash : String
  from_address : String
  amount : ℚ
  comment : String
  deriving DecidableEq

/-- How one call of TonTransactionMonitor._process_transaction ends. -/
inductive MonitorOutcome where
  | invalidComment
  | raffleNotFound
  | currencyMismatch
  | amountMismatch
  | crashedMissingUserLookup
  deriving DecidableEq

/-- Model of TonTransactionMonitor._process_transaction
(app/services/ton_monitor.py, lines 101-237). After the comment, raffle,
currency and amount checks succeed, the source executes
user = await crud.get_user_by_id(session, user_id) (line 149), but
app/database/crud.py defines no function named get_user_by_id (only
get_user_by_telegram_id), so the step raises AttributeError; the blanket
except at the end of _process_transaction swallows it and the session is
abandoned, so no Transaction and no Participant is ever written. (Even if
the lookup existed, the later crud.create_transaction call at lines
174-189 passes a transaction_hash keyword that crud.create_transaction
does not accept, which would raise TypeError at the same point.) The
dedup check against an existing transaction_hash (lines 163-171) and
everything after it are dead code. -/
def processTonTransaction (db : Db) (ev : TonEvent) : Db × MonitorOutcome :=
  match parse_payment_comment ev.comment with
  | none => (db, MonitorOutcome.invalidComment)
  | some (raffle_id, _user_id) =>
    match get_raffle_by_id db raffle_id with
    | none => (db, MonitorOutcome.raffleNotFound)
    | some raffle =>
      if raffle.entry_fee_type ≠ CurrencyType.ton then
        (db, MonitorOutcome.currencyMismatch)
      else if 1 / 1000 < |ev.amount - raffle.entry_fee_amount| then
        (db, MonitorOutcome.amountMismatch)
      else
        (db, MonitorOutcome.crashedMissingUserLookup)

/-- Model of the winner-payout confirmation flow of
handle_successful_payment for payout invoices (app/handlers/payment.py,
lines 556-643): the admin pays the invoice created for the payout request
amount (int() of it for stars), the winner's balance is credited and a
RaffleWin Transaction row is recorded (create_transaction leaves it
Pending), and the payout request is marked completed. -/
def confirmPayout (db : Db) (raffle_id : ℕ) (chargeId : String) : Db :=
  match db.payout_requests.find? (fun p => decide (p.raffle_id = raffle_id)) with
  | none => db
  | some payout =>
    let amount : ℚ :=
      if payout.currency = CurrencyType.stars then (pyTrunc payout.amount : ℚ)
      else payout.amount
    let db1 := update_user_balance db payout.winner_id amount payout.currency
    let db2 := (create_transaction db1 payout.winner_id TransactionType.raffleWin
      amount payout.currency (some chargeId)).1
    { db2 with payout_requests := db2.payout_requests.map (fun p =>
        if p.raffle_id = raffle_id then { p with completed := true } else p) }

/-- Scenario A fixture: three users, one Pending stars raffle with
min_participants 3, entry fee 10 and commission 20 percent, before any
join. -/
def dbA0 : Db :=
  ⟨[⟨1, 101, 0, 0, none⟩, ⟨2, 102, 0, 0, none⟩, ⟨3, 103, 0, 0, none⟩],
    [⟨1, 3, none, CurrencyType.stars, 10, 20, RaffleStatus.pending, none, none,
      none, none, none⟩],
    [], [], []⟩

/-- Scenario A fixture after the first join. -/
def dbA1 : Db := { dbA0 with participants := [⟨1, 1, none, 1⟩] }

/-- Scenario A fixture after the second join. -/
def dbA2 : Db := { dbA0 with participants := [⟨1, 1, none, 1⟩, ⟨1, 2, none, 2⟩] }

/-- Scenario A fixture after the third join. -/
def dbA3 : Db :=
  { dbA0 with participants := [⟨1, 1, none, 1⟩, ⟨1, 2, none, 2⟩, ⟨1, 3, none, 3⟩] }

theorem pyRound_intCast (z : ℤ) : pyRound (z : ℚ) = z := by
  unfold pyRound
  rw [Int.floor_intCast]
  simp

theorem pyTrunc_intCast (z : ℤ) : pyTrunc (z : ℚ) = z := by
  unfold pyTrunc
  rcases le_or_lt 0 (z : ℚ) with h | h
  · rw [if_pos h, Int.floor_intCast]
  · rw [if_neg (not_le.mpr h), Int.ceil_intCast]

theorem pyTrunc_of_nonneg {x : ℚ} (h : 0 ≤ x) : pyTrunc x = ⌊x⌋ := by
  unfold pyTrunc
  rw [if_pos h]

/-- pyRound2 leaves a rational that is already a whole number of
hundredths unchanged. -/
theorem pyRound2_eq_self {x : ℚ} (h : ∃ k : ℤ, x * 100 = (k : ℚ)) :
    pyRound2 x = x := by
  obtain ⟨k, hk⟩ := h
  unfold pyRound2
  rw [hk, pyRound_intCast, ← hk]
  field_simp

/-- pyRound2 always returns a whole number of hundredths. -/
theorem pyRound2_mul_intCast (x : ℚ) : ∃ k : ℤ, pyRound2 x * 100 = (k : ℚ) := by
  refine ⟨pyRound (x * 100), ?_⟩
  unfold pyRound2
  field_simp

/-- Banker's rounding moves a rational by at most one half. -/
theorem abs_pyRound_sub_le (x : ℚ) : |(pyRound x : ℚ) - x| ≤ 1 / 2 := by
  have hfl : (⌊x⌋ : ℚ) ≤ x := Int.floor_le x
  have hfu : x < ⌊x⌋ + 1 := Int.lt_floor_add_one x
  unfold pyRound
  by_cases h1 : x - ⌊x⌋ < 1 / 2
  · rw [if_pos h1]
    rw [abs_le]
    constructor <;> linarith
  · rw [if_neg h1]
    by_cases h2 : 1 / 2 < x - ⌊x⌋
    · rw [if_pos h2]
      rw [abs_le]
      push_cast
      constructor <;> linarith
    · rw [if_neg h2]
      have heq : x - ⌊x⌋ = 1 / 2 := le_antisymm (not_lt.mp h2) (not_lt.mp h1)
      by_cases h3 : 2 ∣ ⌊x⌋
      · rw [if_pos h3, abs_le]
        constructor <;> linarith
      · rw [if_neg h3, abs_le]
        push_cast
        constructor <;> linarith

/-- C1, counterexample: for a RUB raffle with entry fee 10, three
participants and a 25 percent commission, the code computes
commission = 7.5 and prize = round_rub_amount(22.5) = 22, so
commission + prize = 29.5, not the collected 30: the extra whole-ruble
rounding of the prize breaks the claimed invariant. -/
theorem C1_rub_split_counterexample :
    (raffleSettlement 10 CurrencyType.rub 25 3).commission +
      (raffleSettlement 10 CurrencyType.rub 25 3).prize ≠
      (raffleSettlement 10 CurrencyType.rub 25 3).total_collected := by
  have h30 : ((10 : ℚ) * ((3 : ℕ) : ℚ)) = 30 := by norm_num
  unfold raffleSettlement
  rw [if_neg (by decide)]
  simp only [h30]
  have hc : pyRound2 ((30 : ℚ) * (25 / 100)) = 15 / 2 := by
    have : (30 : ℚ) * (25 / 100) * 100 = ((750 : ℤ) : ℚ) := by norm_num
    unfold pyRound2
    rw [this, pyRound_intCast]
    norm_num
  have hp0 : pyRound2 ((30 : ℚ) - 15 / 2) = 45 / 2 := by
    have : ((30 : ℚ) - 15 / 2) * 100 = ((2250 : ℤ) : ℚ) := by norm_num
    unfold pyRound2
    rw [this, pyRound_intCast]
    norm_num
  rw [hc, hp0]
  simp only [if_true]
  have hr : round_rub_amount (45 / 2) = 22 := by
    unfold round_rub_amount pyRound
    have hfl : ⌊(45 / 2 : ℚ)⌋ = 22 := by norm_num
    rw [hfl]
    norm_num
  rw [hr]
  norm_num

theorem raffleSettlement_stars (fee pct : ℚ) (n : ℕ) :
    raffleSettlement fee CurrencyType.stars pct n =
      ⟨fee * n, (pyTrunc (fee * n * pct / 100) : ℚ),
        ((pyTrunc (fee * n) - pyTrunc (fee * n * pct / 100) : ℤ) : ℚ)⟩ := rfl

theorem raffleSettlement_ton (fee pct : ℚ) (n : ℕ) :
    raffleSettlement fee CurrencyType.ton pct n =
      ⟨fee * n, pyRound2 (fee * n * (pct / 100)),
        pyRound2 (fee * n - pyRound2 (fee * n * (pct / 100)))⟩ := rfl

theorem raffleSettlement_rub (fee pct : ℚ) (n : ℕ) :
    raffleSettlement fee CurrencyType.rub pct n =
      ⟨fee * n, pyRound2 (fee * n * (pct / 100)),
        (round_rub_amount (pyRound2 (fee * n - pyRound2 (fee * n * (pct / 100)))) : ℚ)⟩ := rfl

/-- C1 (amended): the exact split invariant commission + prize =
total_collected holds for the integer currency (stars, integer entry fee,
nonnegative fee and percent, with commission = floor(total x percent /
100)) and for TON when the entry fee is a whole number of hundredths; for
RUB the prize is additionally rounded to whole rubles by
round_rub_amount, so commission + prize only stays within half a ruble of
total_collected. -/
theorem C1_settlement_split_amended :
    (∀ (fee : ℤ) (pct : ℚ) (n : ℕ), 0 ≤ fee → 0 ≤ pct →
      (raffleSettlement (fee : ℚ) CurrencyType.stars pct n).commission =
        (⌊(fee : ℚ) * (n : ℚ) * pct / 100⌋ : ℚ) ∧
      (raffleSettlement (fee : ℚ) CurrencyType.stars pct n).commission +
        (raffleSettlement (fee : ℚ) CurrencyType.stars pct n).prize =
        (raffleSettlement (fee : ℚ) CurrencyType.stars pct n).total_collected) ∧
    (∀ (feeCents : ℤ) (pct : ℚ) (n : ℕ),
      (raffleSettlement ((feeCents : ℚ) / 100) CurrencyType.ton pct n).commission +
        (raffleSettlement ((feeCents : ℚ) / 100) CurrencyType.ton pct n).prize =
        (raffleSettlement ((feeCents : ℚ) / 100) CurrencyType.ton pct n).total_collected) ∧
    (∀ (feeCents : ℤ) (pct : ℚ) (n : ℕ),
      |(raffleSettlement ((feeCents : ℚ) / 100) CurrencyType.rub pct n).commission +
        (raffleSettlement ((feeCents : ℚ) / 100) CurrencyType.rub pct n).prize -
        (raffleSettlement ((feeCents : ℚ) / 100) CurrencyType.rub pct n).total_collected| ≤
        1 / 2) := by
  refine ⟨?_, ?_, ?_⟩
  · intro fee pct n hfee hpct
    rw [raffleSettlement_stars]
    have htot : ((fee : ℚ) * (n : ℚ)) = ((fee * (n : ℤ) : ℤ) : ℚ) := by push_cast; ring
    have harg : (0 : ℚ) ≤ (fee : ℚ) * (n : ℚ) * pct / 100 := by positivity
    constructor
    · simp only [pyTrunc_of_nonneg harg]
    · simp only
      rw [htot, pyTrunc_intCast]
      push_cast
      ring
  · intro feeCents pct n
    rw [raffleSettlement_ton]
    simp only
    obtain ⟨k, hk⟩ := pyRound2_mul_intCast ((feeCents : ℚ) / 100 * (n : ℚ) * (pct / 100))
    have hself : pyRound2 ((feeCents : ℚ) / 100 * (n : ℚ) -
        pyRound2 ((feeCents : ℚ) / 100 * (n : ℚ) * (pct / 100))) =
        (feeCents : ℚ) / 100 * (n : ℚ) -
        pyRound2 ((feeCents : ℚ) / 100 * (n : ℚ) * (pct / 100)) := by
      apply pyRound2_eq_self
      refine ⟨feeCents * n - k, ?_⟩
      rw [sub_mul, hk]
      push_cast
      ring
    rw [hself]
    ring
  · intro feeCents pct n
    rw [raffleSettlement_rub]
    simp only
    obtain ⟨k, hk⟩ := pyRound2_mul_intCast ((feeCents : ℚ) / 100 * (n : ℚ) * (pct / 100))
    have hself : pyRound2 ((feeCents : ℚ) / 100 * (n : ℚ) -
        pyRound2 ((feeCents : ℚ) / 100 * (n : ℚ) * (pct / 100))) =
        (feeCents : ℚ) / 100 * (n : ℚ) -
        pyRound2 ((feeCents : ℚ) / 100 * (n : ℚ) * (pct / 100)) := by
      apply pyRound2_eq_self
      refine ⟨feeCents * n - k, ?_⟩
      rw [sub_mul, hk]
      push_cast
      ring
    rw [hself]
    unfold round_rub_amount
    have hb := abs_pyRound_sub_le ((feeCents : ℚ) / 100 * (n : ℚ) -
      pyRound2 ((feeCents : ℚ) / 100 * (n : ℚ) * (pct / 100)))
    calc |pyRound2 ((feeCents : ℚ) / 100 * (n : ℚ) * (pct / 100)) +
          (pyRound ((feeCents : ℚ) / 100 * (n : ℚ) -
            pyRound2 ((feeCents : ℚ) / 100 * (n : ℚ) * (pct / 100))) : ℚ) -
          (feeCents : ℚ) / 100 * (n : ℚ)|
        = |(pyRound ((feeCents : ℚ) / 100 * (n : ℚ) -
            pyRound2 ((feeCents : ℚ) / 100 * (n : ℚ) * (pct / 100))) : ℚ) -
          ((feeCents : ℚ) / 100 * (n : ℚ) -
            pyRound2 ((feeCents : ℚ) / 100 * (n : ℚ) * (pct / 100)))| := by
          congr 1
          ring
      _ ≤ 1 / 2 := hb

/-- Witness for C1 (amended): the stars branch at entry fee 10, twenty
percent commission and three participants, and the RUB bound at entry fee
1050 kopecks (10.50 rubles), 25 percent and three participants. -/
theorem C1_settlement_split_amended_witness :
    ((raffleSettlement ((10 : ℤ) : ℚ) CurrencyType.stars 20 3).commission =
        (⌊((10 : ℤ) : ℚ) * ((3 : ℕ) : ℚ) * 20 / 100⌋ : ℚ) ∧
      (raffleSettlement ((10 : ℤ) : ℚ) CurrencyType.stars 20 3).commission +
        (raffleSettlement ((10 : ℤ) : ℚ) CurrencyType.stars 20 3).prize =
        (raffleSettlement ((10 : ℤ) : ℚ) CurrencyType.stars 20 3).total_collected) ∧
    ((raffleSettlement (((1050 : ℤ) : ℚ) / 100) CurrencyType.ton 25 3).commission +
        (raffleSettlement (((1050 : ℤ) : ℚ) / 100) CurrencyType.ton 25 3).prize =
        (raffleSettlement (((1050 : ℤ) : ℚ) / 100) CurrencyType.ton 25 3).total_collected) ∧
    (|(raffleSettlement (((1050 : ℤ) : ℚ) / 100) CurrencyType.rub 25 3).commission +
        (raffleSettlement (((1050 : ℤ) : ℚ) / 100) CurrencyType.rub 25 3).prize -
        (raffleSettlement (((1050 : ℤ) : ℚ) / 100) CurrencyType.rub 25 3).total_collected| ≤
        1 / 2) :=
  ⟨C1_settlement_split_amended.1 10 20 3 (by norm_num) (by norm_num),
    C1_settlement_split_amended.2.1 1050 25 3,
    C1_settlement_split_amended.2.2 1050 25 3⟩

theorem pyTrunc_le_of_le {a : ℚ} {r : ℤ} (hr : 0 ≤ r) (h : a ≤ (r : ℚ)) :
    pyTrunc a ≤ r := by
  unfold pyTrunc
  by_cases h0 : 0 ≤ a
  · rw [if_pos h0]
    exact_mod_cast (Int.floor_le a).trans h
  · rw [if_neg h0]
    have : a ≤ ((0 : ℤ) : ℚ) := by push_cast; linarith [not_le.mp h0]
    exact (Int.ceil_le.mpr this).trans hr

theorem refundLoop_total_add_remaining (refundOk : ℕ → Bool) (txs : List StarTx)
    (t r : ℤ) :
    (refundLoop refundOk txs t r).total_refunded +
      (refundLoop refundOk txs t r).remaining = t + r := by
  induction txs generalizing t r with
  | nil => rfl
  | cons tx rest ih =>
    unfold refundLoop
    by_cases h1 : r ≤ 0
    · rw [if_pos h1]
    · rw [if_neg h1]
      by_cases h2 : tx.amount ≤ (r : ℚ)
      · rw [if_pos h2]
        by_cases h3 : refundOk tx.id
        · rw [if_pos h3]
          simp only
          rw [ih]
          ring
        · rw [if_neg h3]
          simp only
          rw [ih]
      · rw [if_neg h2]
        exact ih t r

theorem refundLoop_remaining_nonneg (refundOk : ℕ → Bool) (txs : List StarTx)
    (t r : ℤ) (hr : 0 ≤ r) :
    0 ≤ (refundLoop refundOk txs t r).remaining := by
  induction txs generalizing t r with
  | nil => exact hr
  | cons tx rest ih =>
    unfold refundLoop
    by_cases h1 : r ≤ 0
    · rw [if_pos h1]
      exact hr
    · rw [if_neg h1]
      by_cases h2 : tx.amount ≤ (r : ℚ)
      · rw [if_pos h2]
        by_cases h3 : refundOk tx.id
        · rw [if_pos h3]
          simp only
          exact ih _ _ (by linarith [pyTrunc_le_of_le hr h2])
        · rw [if_neg h3]
          simp only
          exact ih t r hr
      · rw [if_neg h2]
        exact ih t r hr

theorem refundLoop_records_sources (refundOk : ℕ → Bool) (txs : List StarTx)
    (t r : ℤ) :
    (∀ rec ∈ (refundLoop refundOk txs t r).successful_refunds,
      ∃ tx, tx ∈ txs ∧ rec.transaction_id = tx.id ∧ rec.payment_id = tx.payment_id ∧
        rec.amount = pyTrunc tx.amount) ∧
    (∀ rec ∈ (refundLoop refundOk txs t r).failed_refunds,
      ∃ tx, tx ∈ txs ∧ rec.transaction_id = tx.id ∧ rec.payment_id = tx.payment_id ∧
        rec.amount = pyTrunc tx.amount) := by
  induction txs generalizing t r with
  | nil =>
    constructor <;> intro rec hrec <;> simp [refundLoop] at hrec
  | cons tx rest ih =>
    unfold refundLoop
    by_cases h1 : r ≤ 0
    · rw [if_pos h1]
      constructor <;> intro rec hrec <;> simp at hrec
    · rw [if_neg h1]
      by_cases h2 : tx.amount ≤ (r : ℚ)
      · rw [if_pos h2]
        by_cases h3 : refundOk tx.id
        · rw [if_pos h3]
          simp only
          constructor
          · intro rec hrec
            rcases List.mem_cons.mp hrec with heq | hmem
            · exact ⟨tx, List.mem_cons_self tx rest, by rw [heq], by rw [heq], by rw [heq]⟩
            · obtain ⟨s, hs, h⟩ := (ih _ _).1 rec hmem
              exact ⟨s, List.mem_cons_of_mem tx hs, h⟩
          · intro rec hrec
            obtain ⟨s, hs, h⟩ := (ih _ _).2 rec hrec
            exact ⟨s, List.mem_cons_of_mem tx hs, h⟩
        · rw [if_neg h3]
          simp only
          constructor
          · intro rec hrec
            obtain ⟨s, hs, h⟩ := (ih t r).1 rec hrec
            exact ⟨s, List.mem_cons_of_mem tx hs, h⟩
          · intro rec hrec
            rcases List.mem_cons.mp hrec with heq | hmem
            · exact ⟨tx, List.mem_cons_self tx rest, by rw [heq], by rw [heq], by rw [heq]⟩
            · obtain ⟨s, hs, h⟩ := (ih t r).2 rec hmem
              exact ⟨s, List.mem_cons_of_mem tx hs, h⟩
      · rw [if_neg h2]
        constructor
        · intro rec hrec
          obtain ⟨s, hs, h⟩ := (ih t r).1 rec hrec
          exact ⟨s, List.mem_cons_of_mem tx hs, h⟩
        · intro rec hrec
          obtain ⟨s, hs, h⟩ := (ih t r).2 rec hrec
          exact ⟨s, List.mem_cons_of_mem tx hs, h⟩

/-- C2: for every nonnegative withdrawal amount and every charge list, the
refund engine returns total_refunded + remaining = withdrawal_amount, with
total_refunded never above withdrawal_amount, and every successful
reversal bounded by the source charge's original amount. -/
theorem C2_refund_engine_invariants (refundOk : ℕ → Bool) (withdrawal_amount : ℤ)
    (transactions : List StarTx) (now : ℤ) (hw : 0 ≤ withdrawal_amount) :
    (process_withdrawal_with_multiple_refunds refundOk withdrawal_amount
        transactions now).total_refunded +
      (process_withdrawal_with_multiple_refunds refundOk withdrawal_amount
        transactions now).remaining = withdrawal_amount ∧
    (process_withdrawal_with_multiple_refunds refundOk withdrawal_amount
        transactions now).total_refunded ≤ withdrawal_amount ∧
    (∀ rec ∈ (process_withdrawal_with_multiple_refunds refundOk withdrawal_amount
        transactions now).successful_refunds,
      ∃ tx, tx ∈ transactions ∧ rec.transaction_id = tx.id ∧
        (rec.amount : ℚ) ≤ tx.amount) := by
  have hsum := refundLoop_total_add_remaining refundOk
    (newestFirst (transactions.filter (eligibleForRefund now))) 0 withdrawal_amount
  have hrem := refundLoop_remaining_nonneg refundOk
    (newestFirst (transactions.filter (eligibleForRefund now))) 0 withdrawal_amount hw
  rw [zero_add] at hsum
  refine ⟨hsum, ?_, ?_⟩
  · show (refundLoop refundOk
      (newestFirst (transactions.filter (eligibleForRefund now))) 0
      withdrawal_amount).total_refunded ≤ withdrawal_amount
    omega
  intro rec hrec
  obtain ⟨tx, htx, hid, -, hamt⟩ := (refundLoop_records_sources refundOk
    (newestFirst (transactions.filter (eligibleForRefund now))) 0 withdrawal_amount).1
    rec hrec
  have htx2 : tx ∈ transactions.filter (eligibleForRefund now) := by
    unfold newestFirst at htx
    exact (List.perm_insertionSort (fun a b : StarTx => b.created_at ≤ a.created_at)
      (transactions.filter (eligibleForRefund now))).mem_iff.mp htx
  have hpos : 0 < tx.amount := by
    have := List.of_mem_filter htx2
    simp only [eligibleForRefund, Bool.and_eq_true, decide_eq_true_eq] at this
    exact this.2
  refine ⟨tx, List.mem_of_mem_filter htx2, hid, ?_⟩
  rw [hamt, pyTrunc_of_nonneg hpos.le]
  exact Int.floor_le tx.amount

/-- Witness for C2 at a concrete input. -/
theorem C2_refund_engine_invariants_witness :
    (0 : ℤ) ≤ 1500 ∧
    ((process_withdrawal_with_multiple_refunds (fun _ => true) 1500 [] 0).total_refunded +
      (process_withdrawal_with_multiple_refunds (fun _ => true) 1500 [] 0).remaining = 1500 ∧
    (process_withdrawal_with_multiple_refunds (fun _ => true) 1500 [] 0).total_refunded ≤ 1500 ∧
    (∀ rec ∈ (process_withdrawal_with_multiple_refunds
        (fun _ => true) 1500 [] 0).successful_refunds,
      ∃ tx, tx ∈ ([] : List StarTx) ∧ rec.transaction_id = tx.id ∧
        (rec.amount : ℚ) ≤ tx.amount)) :=
  ⟨by norm_num, C2_refund_engine_invariants (fun _ => true) 1500 [] 0 (by norm_num)⟩

theorem process_withdrawal_eq (refundOk : ℕ → Bool) (withdrawal_amount : ℤ)
    (transactions : List StarTx) (now : ℤ) :
    process_withdrawal_with_multiple_refunds refundOk withdrawal_amount
        transactions now =
      ⟨(refundLoop refundOk (newestFirst (transactions.filter (eligibleForRefund now)))
          0 withdrawal_amount).total_refunded,
        (refundLoop refundOk (newestFirst (transactions.filter (eligibleForRefund now)))
          0 withdrawal_amount).remaining,
        (refundLoop refundOk (newestFirst (transactions.filter (eligibleForRefund now)))
          0 withdrawal_amount).successful_refunds,
        (refundLoop refundOk (newestFirst (transactions.filter (eligibleForRefund now)))
          0 withdrawal_amount).failed_refunds,
        if 0 < withdrawal_amount then
          ((refundLoop refundOk (newestFirst (transactions.filter (eligibleForRefund now)))
            0 withdrawal_amount).total_refunded : ℚ) / (withdrawal_amount : ℚ) * 100
        else 0⟩ := rfl

theorem refundLoop_of_nonpos (refundOk : ℕ → Bool) (txs : List StarTx)
    (t r : ℤ) (h : r ≤ 0) : refundLoop refundOk txs t r = ⟨t, r, [], []⟩ := by
  cases txs with
  | nil => rfl
  | cons tx rest =>
    unfold refundLoop
    rw [if_pos h]

/-- C10: with withdrawal_amount = 0 the engine returns all-zero totals,
empty refund lists, and refund_rate 0 through the explicit guard on the
division, for every transaction list. -/
theorem C10_zero_withdrawal_total (refundOk : ℕ → Bool) (transactions : List StarTx)
    (now : ℤ) :
    process_withdrawal_with_multiple_refunds refundOk 0 transactions now =
      ⟨0, 0, [], [], 0⟩ := by
  rw [process_withdrawal_eq, refundLoop_of_nonpos _ _ _ _ le_rfl]
  norm_num

/-- C8: Scenario B concretely (withdrawal 1500, charges newest-first 400,
1000, 300 gives total_refunded 1400 and remaining 100 with the 300 charge
skipped), together with the general walk rules: a charge not above the
remaining amount is reversed in full, a larger charge is skipped and the
walk continues with the next charge. -/
theorem C8_scenario_b_walk :
    ((process_withdrawal_with_multiple_refunds (fun _ => true) 1500
        [⟨1, 7, TransactionType.raffleEntry, 400, CurrencyType.stars,
            TransactionStatus.completed, some "c1", 300⟩,
          ⟨2, 7, TransactionType.raffleEntry, 1000, CurrencyType.stars,
            TransactionStatus.completed, some "c2", 200⟩,
          ⟨3, 7, TransactionType.raffleEntry, 300, CurrencyType.stars,
            TransactionStatus.completed, some "c3", 100⟩] 300).total_refunded = 1400 ∧
      (process_withdrawal_with_multiple_refunds (fun _ => true) 1500
        [⟨1, 7, TransactionType.raffleEntry, 400, CurrencyType.stars,
            TransactionStatus.completed, some "c1", 300⟩,
          ⟨2, 7, TransactionType.raffleEntry, 1000, CurrencyType.stars,
            TransactionStatus.completed, some "c2", 200⟩,
          ⟨3, 7, TransactionType.raffleEntry, 300, CurrencyType.stars,
            TransactionStatus.completed, some "c3", 100⟩] 300).remaining = 100 ∧
      (process_withdrawal_with_multiple_refunds (fun _ => true) 1500
        [⟨1, 7, TransactionType.raffleEntry, 400, CurrencyType.stars,
            TransactionStatus.completed, some "c1", 300⟩,
          ⟨2, 7, TransactionType.raffleEntry, 1000, CurrencyType.stars,
            TransactionStatus.completed, some "c2", 200⟩,
          ⟨3, 7, TransactionType.raffleEntry, 300, CurrencyType.stars,
            TransactionStatus.completed, some "c3", 100⟩] 300).successful_refunds =
        [⟨1, some "c1", 400⟩, ⟨2, some "c2", 1000⟩] ∧
      (process_withdrawal_with_multiple_refunds (fun _ => true) 1500
        [⟨1, 7, TransactionType.raffleEntry, 400, CurrencyType.stars,
            TransactionStatus.completed, some "c1", 300⟩,
          ⟨2, 7, TransactionType.raffleEntry, 1000, CurrencyType.stars,
            TransactionStatus.completed, some "c2", 200⟩,
          ⟨3, 7, TransactionType.raffleEntry, 300, CurrencyType.stars,
            TransactionStatus.completed, some "c3", 100⟩] 300).failed_refunds = []) ∧
    (∀ (refundOk : ℕ → Bool) (tx : StarTx) (rest : List StarTx) (t r : ℤ),
      0 < r → tx.amount ≤ (r : ℚ) → refundOk tx.id = true →
      refundLoop refundOk (tx :: rest) t r =
        ⟨(refundLoop refundOk rest (t + pyTrunc tx.amount) (r - pyTrunc tx.amount)).total_refunded,
          (refundLoop refundOk rest (t + pyTrunc tx.amount) (r - pyTrunc tx.amount)).remaining,
          ⟨tx.id, tx.payment_id, pyTrunc tx.amount⟩ ::
            (refundLoop refundOk rest (t + pyTrunc tx.amount)
              (r - pyTrunc tx.amount)).successful_refunds,
          (refundLoop refundOk rest (t + pyTrunc tx.amount)
            (r - pyTrunc tx.amount)).failed_refunds⟩) ∧
    (∀ (refundOk : ℕ → Bool) (tx : StarTx) (rest : List StarTx) (t r : ℤ),
      0 < r → (r : ℚ) < tx.amount →
      refundLoop refundOk (tx :: rest) t r = refundLoop refundOk rest t r) := by
  refine ⟨⟨by decide, by decide, by decide, by decide⟩, ?_, ?_⟩
  · intro refundOk tx rest t r h0 h1 h2
    conv_lhs => rw [refundLoop]
    rw [if_neg (by omega), if_pos h1, if_pos h2]
  · intro refundOk tx rest t r h0 h1
    conv_lhs => rw [refundLoop]
    rw [if_neg (by omega), if_neg (not_le.mpr h1)]

/-- Witness for the general walk rules of C8 at concrete inputs. -/
theorem C8_scenario_b_walk_witness :
    (refundLoop (fun _ => true)
        [⟨1, 7, TransactionType.raffleEntry, 400, CurrencyType.stars,
          TransactionStatus.completed, some "c1", 300⟩] 0 1500 =
      ⟨(refundLoop (fun _ => true) [] (0 + pyTrunc 400) (1500 - pyTrunc 400)).total_refunded,
        (refundLoop (fun _ => true) [] (0 + pyTrunc 400) (1500 - pyTrunc 400)).remaining,
        ⟨1, some "c1", pyTrunc 400⟩ ::
          (refundLoop (fun _ => true) [] (0 + pyTrunc 400)
            (1500 - pyTrunc 400)).successful_refunds,
        (refundLoop (fun _ => true) [] (0 + pyTrunc 400)
          (1500 - pyTrunc 400)).failed_refunds⟩) ∧
    (refundLoop (fun _ => true)
        [⟨3, 7, TransactionType.raffleEntry, 300, CurrencyType.stars,
          TransactionStatus.completed, some "c3", 100⟩] 1400 100 =
      refundLoop (fun _ => true) [] 1400 100) :=
  ⟨C8_scenario_b_walk.2.1 (fun _ => true)
      ⟨1, 7, TransactionType.raffleEntry, 400, CurrencyType.stars,
        TransactionStatus.completed, some "c1", 300⟩ [] 0 1500
      (by norm_num) (by norm_num) rfl,
    C8_scenario_b_walk.2.2 (fun _ => true)
      ⟨3, 7, TransactionType.raffleEntry, 300, CurrencyType.stars,
        TransactionStatus.completed, some "c3", 100⟩ [] 1400 100
      (by norm_num) (by norm_num)⟩

/-- C9: every charge the engine walks (and hence every attempted reversal,
successful or failed) is a completed entry-fee charge with an external
charge reference inside the 21-day window, the walk list is sorted by
charge time descending (newest first), and the refund lists are exactly
those produced by walking that list. The completed/entry-fee part of the
filter lives in the star_transactions query of the approval handler; the
engine itself re-checks the reference, the window and positivity. -/
theorem C9_eligibility_and_order (refundOk : ℕ → Bool) (txs : List StarTx)
    (userId : ℕ) (withdrawal_amount : ℤ) (now : ℤ) :
    (∀ tx ∈ consideredCharges txs userId now,
      tx.type = TransactionType.raffleEntry ∧ tx.status = TransactionStatus.completed ∧
        tx.payment_id.isSome = true ∧ refundCutoff now ≤ tx.created_at) ∧
    List.Sorted (fun a b : StarTx => b.created_at ≤ a.created_at)
      (consideredCharges txs userId now) ∧
    (approveStarWithdrawal refundOk withdrawal_amount txs userId now).successful_refunds =
      (refundLoop refundOk (consideredCharges txs userId now) 0
        withdrawal_amount).successful_refunds ∧
    (approveStarWithdrawal refundOk withdrawal_amount txs userId now).failed_refunds =
      (refundLoop refundOk (consideredCharges txs userId now) 0
        withdrawal_amount).failed_refunds ∧
    (∀ rec ∈ (approveStarWithdrawal refundOk withdrawal_amount txs userId
          now).successful_refunds ++
        (approveStarWithdrawal refundOk withdrawal_amount txs userId now).failed_refunds,
      ∃ tx, tx ∈ consideredCharges txs userId now ∧ rec.transaction_id = tx.id ∧
        rec.payment_id = tx.payment_id) := by
  haveI htot : IsTotal StarTx (fun a b => b.created_at ≤ a.created_at) :=
    ⟨fun a b => le_total b.created_at a.created_at⟩
  haveI htrans : IsTrans StarTx (fun a b => b.created_at ≤ a.created_at) :=
    ⟨fun a b c hab hbc => le_trans hbc hab⟩
  refine ⟨?_, ?_, rfl, rfl, ?_⟩
  · intro tx htx
    have htx1 : tx ∈ (star_transactions_query txs userId now).filter
        (eligibleForRefund now) := by
      unfold consideredCharges newestFirst at htx
      exact (List.perm_insertionSort (fun a b : StarTx => b.created_at ≤ a.created_at)
        ((star_transactions_query txs userId now).filter (eligibleForRefund now))).mem_iff.mp htx
    have htx2 : tx ∈ star_transactions_query txs userId now :=
      List.mem_of_mem_filter htx1
    have htx3 : tx ∈ txs.filter (fun t =>
        decide (t.user_id = userId) && decide (t.currency = CurrencyType.stars) &&
        decide (t.type = TransactionType.raffleEntry) &&
        decide (t.status = TransactionStatus.completed) &&
        t.payment_id.isSome && decide (refundCutoff now ≤ t.created_at)) := by
      unfold star_transactions_query at htx2
      exact (List.perm_insertionSort (fun a b : StarTx => b.created_at ≤ a.created_at)
        _).mem_iff.mp htx2
    have hq := List.of_mem_filter htx3
    simp only [Bool.and_eq_true, decide_eq_true_eq] at hq
    exact ⟨hq.1.1.1.2, hq.1.1.2, hq.1.2, hq.2⟩
  · unfold consideredCharges newestFirst
    exact List.sorted_insertionSort (fun a b : StarTx => b.created_at ≤ a.created_at) _
  · intro rec hrec
    have hsrc := refundLoop_records_sources refundOk (consideredCharges txs userId now)
      0 withdrawal_amount
    rcases List.mem_append.mp hrec with h | h
    · obtain ⟨tx, htx, hid, hpay, -⟩ := hsrc.1 rec h
      exact ⟨tx, htx, hid, hpay⟩
    · obtain ⟨tx, htx, hid, hpay, -⟩ := hsrc.2 rec h
      exact ⟨tx, htx, hid, hpay⟩

/-- Witness for C9 at a concrete input. -/
theorem C9_eligibility_and_order_witness :
    (∀ tx ∈ consideredCharges
        [⟨1, 7, TransactionType.raffleEntry, 400, CurrencyType.stars,
          TransactionStatus.completed, some "c1", 300⟩] 7 300,
      tx.type = TransactionType.raffleEntry ∧ tx.status = TransactionStatus.completed ∧
        tx.payment_id.isSome = true ∧ refundCutoff 300 ≤ tx.created_at) ∧
    List.Sorted (fun a b : StarTx => b.created_at ≤ a.created_at)
      (consideredCharges
        [⟨1, 7, TransactionType.raffleEntry, 400, CurrencyType.stars,
          TransactionStatus.completed, some "c1", 300⟩] 7 300) ∧
    (approveStarWithdrawal (fun _ => true) 100
        [⟨1, 7, TransactionType.raffleEntry, 400, CurrencyType.stars,
          TransactionStatus.completed, some "c1", 300⟩] 7 300).successful_refunds =
      (refundLoop (fun _ => true)
        (consideredCharges
          [⟨1, 7, TransactionType.raffleEntry, 400, CurrencyType.stars,
            TransactionStatus.completed, some "c1", 300⟩] 7 300) 0 100).successful_refunds ∧
    (approveStarWithdrawal (fun _ => true) 100
        [⟨1, 7, TransactionType.raffleEntry, 400, CurrencyType.stars,
          TransactionStatus.completed, some "c1", 300⟩] 7 300).failed_refunds =
      (refundLoop (fun _ => true)
        (consideredCharges
          [⟨1, 7, TransactionType.raffleEntry, 400, CurrencyType.stars,
            TransactionStatus.completed, some "c1", 300⟩] 7 300) 0 100).failed_refunds ∧
    (∀ rec ∈ (approveStarWithdrawal (fun _ => true) 100
          [⟨1, 7, TransactionType.raffleEntry, 400, CurrencyType.stars,
            TransactionStatus.completed, some "c1", 300⟩] 7 300).successful_refunds ++
        (approveStarWithdrawal (fun _ => true) 100
          [⟨1, 7, TransactionType.raffleEntry, 400, CurrencyType.stars,
            TransactionStatus.completed, some "c1", 300⟩] 7 300).failed_refunds,
      ∃ tx, tx ∈ consideredCharges
          [⟨1, 7, TransactionType.raffleEntry, 400, CurrencyType.stars,
            TransactionStatus.completed, some "c1", 300⟩] 7 300 ∧
        rec.transaction_id = tx.id ∧ rec.payment_id = tx.payment_id) :=
  C9_eligibility_and_order (fun _ => true)
    [⟨1, 7, TransactionType.raffleEntry, 400, CurrencyType.stars,
      TransactionStatus.completed, some "c1", 300⟩] 7 100 300

/-- C3 (code bug): the ingestion monitor can never record a transaction.
The first conjunct shows every delivery leaves the store unchanged; the
second evaluates a fully valid first delivery (well-formed tag, existing
TON raffle, matching amount) and shows it dies at the missing
crud.get_user_by_id step instead of writing one Completed Transaction and
one Participant. -/
theorem C3_monitor_records_nothing :
    (∀ (db : Db) (ev : TonEvent),
      (processTonTransaction db ev).1 = db) ∧
    processTonTransaction
      ⟨[⟨1, 101, 0, 0, none⟩],
        [⟨1, 3, none, CurrencyType.ton, 1, 10, RaffleStatus.pending, none, none,
          none, none, none⟩], [], [], []⟩
      ⟨"h1", "sender", 1, "raffle_1_user_1"⟩ =
      (⟨[⟨1, 101, 0, 0, none⟩],
        [⟨1, 3, none, CurrencyType.ton, 1, 10, RaffleStatus.pending, none, none,
          none, none, none⟩], [], [], []⟩,
        MonitorOutcome.crashedMissingUserLookup) := by
  constructor
  · intro db ev
    unfold processTonTransaction
    cases parse_payment_comment ev.comment with
    | none => rfl
    | some pr =>
      obtain ⟨rid, uid⟩ := pr
      dsimp only
      cases get_raffle_by_id db rid with
      | none => rfl
      | some raffle =>
        dsimp only
        split_ifs <;> rfl
  · have hp : parse_payment_comment "raffle_1_user_1" = some (1, 1) := by decide
    have hg : get_raffle_by_id
        ⟨[⟨1, 101, 0, 0, none⟩],
          [⟨1, 3, none, CurrencyType.ton, 1, 10, RaffleStatus.pending, none, none,
            none, none, none⟩], [], [], []⟩ 1 =
        some ⟨1, 3, none, CurrencyType.ton, 1, 10, RaffleStatus.pending, none, none,
          none, none, none⟩ := rfl
    unfold processTonTransaction
    rw [show (⟨"h1", "sender", 1, "raffle_1_user_1"⟩ : TonEvent).comment =
      "raffle_1_user_1" from rfl, hp]
    dsimp only
    rw [hg]
    dsimp only
    rw [if_neg (by decide)]
    rw [if_neg (by norm_num)]

/-- C4: when the participant numbers of a raffle form the dense range
1..N and the oracle draws k in [1, N], indexing the number-ordered
participant list at k - 1 yields exactly the participant whose
participant_number is k; and add_participant always assigns the next
number as the current count plus one. -/
theorem C4_draw_maps_to_participant_number (db : Db) (raffle_id N k : ℕ)
    (hperm : List.Perm ((get_raffle_participants db raffle_id).map
      (fun p => p.participant_number)) (List.range' 1 N))
    (hk1 : 1 ≤ k) (hkN : k ≤ N) :
    (∃ p, pythonIndex (get_raffle_participants db raffle_id) ((k : ℤ) - 1) = some p ∧
      p.participant_number = k) ∧
    (∀ (db2 : Db) (uid : ℕ) (txid : Option ℕ) (db3 : Db) (p : ParticipantRow),
      add_participant db2 raffle_id uid txid = Except.ok (db3, p) →
      p.participant_number =
        (db2.participants.filter (fun q => decide (q.raffle_id = raffle_id))).length + 1) := by
  constructor
  · haveI : IsTotal ParticipantRow
        (fun a b => a.participant_number ≤ b.participant_number) :=
      ⟨fun a b => le_total a.participant_number b.participant_number⟩
    haveI : IsTrans ParticipantRow
        (fun a b => a.participant_number ≤ b.participant_number) :=
      ⟨fun a b c hab hbc => le_trans hab hbc⟩
    have hsorted : List.Sorted
        (fun a b : ParticipantRow => a.participant_number ≤ b.participant_number)
        (get_raffle_participants db raffle_id) := by
      unfold get_raffle_participants
      exact List.sorted_insertionSort _ _
    have hmap_sorted : List.Sorted (· ≤ ·)
        ((get_raffle_participants db raffle_id).map (fun p => p.participant_number)) :=
      List.pairwise_map.mpr hsorted
    have hrange_sorted : List.Sorted (· ≤ ·) (List.range' 1 N) :=
      (List.pairwise_lt_range' 1 N).imp (fun h => le_of_lt h)
    have heq : (get_raffle_participants db raffle_id).map
        (fun p => p.participant_number) = List.range' 1 N :=
      List.eq_of_perm_of_sorted hperm hmap_sorted hrange_sorted
    have hlen : (get_raffle_participants db raffle_id).length = N := by
      have := congrArg List.length heq
      rwa [List.length_map, List.length_range'] at this
    have hlt : k - 1 < (get_raffle_participants db raffle_id).length := by omega
    refine ⟨(get_raffle_participants db raffle_id)[k - 1], ?_, ?_⟩
    · unfold pythonIndex
      rw [if_pos (by omega)]
      rw [show ((k : ℤ) - 1).toNat = k - 1 by omega]
      exact List.getElem?_eq_getElem hlt
    · have hmapel : ((get_raffle_participants db raffle_id).map
          (fun p => p.participant_number))[k - 1]? =
          some ((get_raffle_participants db raffle_id)[k - 1].participant_number) := by
        rw [List.getElem?_map, List.getElem?_eq_getElem hlt]
        rfl
      rw [heq, List.getElem?_range' 1 1 (by omega)] at hmapel
      have := Option.some.inj hmapel
      omega
  · intro db2 uid txid db3 p h
    unfold add_participant at h
    by_cases hdup : (db2.participants.filter (fun q =>
        decide (q.raffle_id = raffle_id) && decide (q.user_id = uid))).isEmpty
    · rw [if_pos hdup] at h
      have hpair := Except.ok.inj h
      have hsnd := congrArg Prod.snd hpair
      dsimp only at hsnd
      rw [← hsnd]
    · rw [if_neg hdup] at h
      exact absurd h (by simp)

/-- Witness for C4: a three-participant raffle and the draw k = 2. -/
theorem C4_draw_maps_to_participant_number_witness :
    ((∃ p, pythonIndex (get_raffle_participants
        ⟨[], [], [⟨1, 11, none, 1⟩, ⟨1, 12, none, 2⟩, ⟨1, 13, none, 3⟩], [], []⟩ 1)
        ((2 : ℤ) - 1) = some p ∧ p.participant_number = 2) ∧
    (∀ (db2 : Db) (uid : ℕ) (txid : Option ℕ) (db3 : Db) (p : ParticipantRow),
      add_participant db2 1 uid txid = Except.ok (db3, p) →
      p.participant_number =
        (db2.participants.filter (fun q => decide (q.raffle_id = 1))).length + 1)) :=
  C4_draw_maps_to_participant_number
    ⟨[], [], [⟨1, 11, none, 1⟩, ⟨1, 12, none, 2⟩, ⟨1, 13, none, 3⟩], [], []⟩ 1 3 2
    (by decide) (by decide) (by decide)

/-- C6: when the raffle is missing, not Pending, or short of
min_participants, execute_raffle returns without touching the store and
without contacting the oracle, reporting only the guard outcome. -/
theorem C6_execute_precondition_noop (db : Db) (raffle_id : ℕ)
    (oracle : Except Unit ℤ) (adminOk postOk : Bool) (now : ℤ)
    (h : ∀ r, get_raffle_by_id db raffle_id = some r →
      r.status ≠ RaffleStatus.pending ∨
      (get_raffle_participants db raffle_id).length < r.min_participants) :
    (execute_raffle db raffle_id oracle adminOk postOk now).db = db ∧
    (execute_raffle db raffle_id oracle adminOk postOk now).oracleCalled = false ∧
    ((execute_raffle db raffle_id oracle adminOk postOk now).outcome =
        ExecOutcome.invalidStatus ∨
      (execute_raffle db raffle_id oracle adminOk postOk now).outcome =
        ExecOutcome.notEnoughParticipants) := by
  unfold execute_raffle
  cases hget : get_raffle_by_id db raffle_id with
  | none => exact ⟨rfl, rfl, Or.inl rfl⟩
  | some r =>
    dsimp only
    rcases h r hget with hst | hcnt
    · rw [if_pos hst]
      exact ⟨rfl, rfl, Or.inl rfl⟩
    · by_cases hst : r.status ≠ RaffleStatus.pending
      · rw [if_pos hst]
        exact ⟨rfl, rfl, Or.inl rfl⟩
      · rw [if_neg hst, if_pos hcnt]
        exact ⟨rfl, rfl, Or.inr rfl⟩

/-- Witness for C6: a Pending raffle with 0 of 3 required participants. -/
theorem C6_execute_precondition_noop_witness :
    (execute_raffle
      ⟨[], [⟨1, 3, none, CurrencyType.stars, 10, 20, RaffleStatus.pending, none, none,
        none, none, none⟩], [], [], []⟩ 1 (Except.ok 1) true true 0).db =
      ⟨[], [⟨1, 3, none, CurrencyType.stars, 10, 20, RaffleStatus.pending, none, none,
        none, none, none⟩], [], [], []⟩ ∧
    (execute_raffle
      ⟨[], [⟨1, 3, none, CurrencyType.stars, 10, 20, RaffleStatus.pending, none, none,
        none, none, none⟩], [], [], []⟩ 1 (Except.ok 1) true true 0).oracleCalled = false ∧
    ((execute_raffle
      ⟨[], [⟨1, 3, none, CurrencyType.stars, 10, 20, RaffleStatus.pending, none, none,
        none, none, none⟩], [], [], []⟩ 1 (Except.ok 1) true true 0).outcome =
        ExecOutcome.invalidStatus ∨
      (execute_raffle
        ⟨[], [⟨1, 3, none, CurrencyType.stars, 10, 20, RaffleStatus.pending, none, none,
          none, none, none⟩], [], [], []⟩ 1 (Except.ok 1) true true 0).outcome =
        ExecOutcome.notEnoughParticipants) :=
  C6_execute_precondition_noop _ 1 (Except.ok 1) true true 0 (by
    intro r hr
    rw [show get_raffle_by_id
      ⟨[], [⟨1, 3, none, CurrencyType.stars, 10, 20, RaffleStatus.pending, none, none,
        none, none, none⟩], [], [], []⟩ 1 =
      some ⟨1, 3, none, CurrencyType.stars, 10, 20, RaffleStatus.pending, none, none,
        none, none, none⟩ from rfl] at hr
    cases hr
    right
    decide)

theorem find_map_ite (l : List RaffleRow) (rid : ℕ) (f : RaffleRow → RaffleRow)
    (hid : ∀ r, (f r).id = r.id) :
    (l.map (fun r => if r.id = rid then f r else r)).find?
        (fun r => decide (r.id = rid)) =
      (l.find? (fun r => decide (r.id = rid))).map f := by
  induction l with
  | nil => rfl
  | cons a l ih =>
    rw [List.map_cons]
    by_cases ha : a.id = rid
    · rw [if_pos ha, List.find?_cons_of_pos _ (by simp [hid, ha]),
        List.find?_cons_of_pos _ (by simp [ha])]
      rfl
    · rw [if_neg ha, List.find?_cons_of_neg _ (by simp [ha]),
        List.find?_cons_of_neg _ (by simp [ha]), ih]

theorem get_raffle_by_id_update_raffle_status (db : Db) (rid : ℕ)
    (st : RaffleStatus) (now : ℤ) :
    get_raffle_by_id (update_raffle_status db rid st now) rid =
      (get_raffle_by_id db rid).map (fun r =>
        { r with
          status := st
          started_at :=
            if st = RaffleStatus.active ∧ r.started_at = none then some now
            else r.started_at
          finished_at :=
            if st = RaffleStatus.finished ∧ r.finished_at = none then some now
            else r.finished_at }) := by
  unfold get_raffle_by_id update_raffle_status
  exact find_map_ite db.raffles rid _ (fun r => rfl)

theorem get_raffle_by_id_set_raffle_winner (db : Db) (rid : ℕ) (winner_id : ℕ)
    (random_result : ℤ) (prize_amount : ℚ) (now : ℤ) :
    get_raffle_by_id (set_raffle_winner db rid winner_id random_result prize_amount now)
        rid =
      (get_raffle_by_id db rid).map (fun r =>
        { r with
          winner_id := some winner_id
          random_result := some random_result
          prize_amount := some prize_amount
          status := RaffleStatus.finished
          finished_at := some now }) := by
  unfold get_raffle_by_id set_raffle_winner
  exact find_map_ite db.raffles rid _ (fun r => rfl)

theorem isSome_get_update_raffle_status (db : Db) (rid : ℕ) (st : RaffleStatus)
    (now : ℤ) :
    (get_raffle_by_id (update_raffle_status db rid st now) rid).isSome =
      (get_raffle_by_id db rid).isSome := by
  rw [get_raffle_by_id_update_raffle_status]
  cases get_raffle_by_id db rid <;> rfl

theorem isSome_get_set_raffle_winner (db : Db) (rid : ℕ) (winner_id : ℕ)
    (random_result : ℤ) (prize_amount : ℚ) (now : ℤ) :
    (get_raffle_by_id (set_raffle_winner db rid winner_id random_result prize_amount
        now) rid).isSome = (get_raffle_by_id db rid).isSome := by
  rw [get_raffle_by_id_set_raffle_winner]
  cases get_raffle_by_id db rid <;> rfl

theorem status_after_rollback (db : Db) (rid : ℕ) (now : ℤ)
    (h : (get_raffle_by_id db rid).isSome) :
    (get_raffle_by_id (update_raffle_status db rid RaffleStatus.pending now)
      rid).map (fun x => x.status) = some RaffleStatus.pending := by
  obtain ⟨q, hq⟩ := Option.isSome_iff_exists.mp h
  rw [get_raffle_by_id_update_raffle_status, hq]
  rfl

/-- C7: whenever execute_raffle ends in a failure after passing its
guards (oracle error, out-of-range draw, or an exception in the
post-settlement phase), the raffle's status in the resulting store is
Pending again, so a later trigger can retry. -/
theorem C7_failure_rolls_back_to_pending (db : Db) (raffle_id : ℕ)
    (oracle : Except Unit ℤ) (adminOk postOk : Bool) (now : ℤ) (r : RaffleRow)
    (hr : get_raffle_by_id db raffle_id = some r)
    (hfail : (execute_raffle db raffle_id oracle adminOk postOk now).outcome =
        ExecOutcome.oracleFailed ∨
      (execute_raffle db raffle_id oracle adminOk postOk now).outcome =
        ExecOutcome.indexError ∨
      (execute_raffle db raffle_id oracle adminOk postOk now).outcome =
        ExecOutcome.postFailed) :
    (get_raffle_by_id (execute_raffle db raffle_id oracle adminOk postOk now).db
      raffle_id).map (fun x => x.status) = some RaffleStatus.pending := by
  have hact : (get_raffle_by_id
      (update_raffle_status db raffle_id RaffleStatus.active now) raffle_id).isSome := by
    rw [isSome_get_update_raffle_status, hr]
    rfl
  have hwin : ∀ (w : ℕ) (num : ℤ) (pz : ℚ),
      (get_raffle_by_id (set_raffle_winner
        (update_raffle_status db raffle_id RaffleStatus.active now) raffle_id w num pz
        now) raffle_id).isSome := by
    intro w num pz
    rw [isSome_get_set_raffle_winner]
    exact hact
  unfold execute_raffle at hfail ⊢
  rw [hr] at hfail ⊢
  dsimp only at hfail ⊢
  by_cases h1 : r.status ≠ RaffleStatus.pending
  · rw [if_pos h1] at hfail ⊢
    simp at hfail
  · rw [if_neg h1] at hfail ⊢
    by_cases h2 : (get_raffle_participants db raffle_id).length < r.min_participants
    · rw [if_pos h2] at hfail ⊢
      simp at hfail
    · rw [if_neg h2] at hfail ⊢
      cases oracle with
      | error e =>
        dsimp only at hfail ⊢
        exact status_after_rollback _ _ _ hact
      | ok num =>
        dsimp only at hfail ⊢
        cases hidx : pythonIndex (get_raffle_participants db raffle_id) (num - 1) with
        | none =>
          rw [hidx] at hfail
          dsimp only at hfail ⊢
          exact status_after_rollback _ _ _ hact
        | some wp =>
          rw [hidx] at hfail
          dsimp only at hfail ⊢
          by_cases h3 : r.entry_fee_type = CurrencyType.ton
          · rw [if_pos h3] at hfail ⊢
            by_cases h4 : postOk = true
            · rw [if_pos h4] at hfail ⊢
              simp at hfail
            · rw [if_neg h4] at hfail ⊢
              exact status_after_rollback _ _ _ (hwin _ _ _)
          · rw [if_neg h3] at hfail ⊢
            by_cases h5 : adminOk = true
            · rw [if_pos h5] at hfail ⊢
              by_cases h4 : postOk = true
              · rw [if_pos h4] at hfail ⊢
                simp at hfail
              · rw [if_neg h4] at hfail ⊢
                exact status_after_rollback _ _ _ (hwin _ _ _)
            · rw [if_neg h5] at hfail ⊢
              exact status_after_rollback _ _ _ (hwin _ _ _)

/-- Witness for C7: an oracle failure on a ready two-participant raffle. -/
theorem C7_failure_rolls_back_to_pending_witness :
    (get_raffle_by_id (execute_raffle
      ⟨[], [⟨1, 1, none, CurrencyType.stars, 10, 20, RaffleStatus.pending, none, none,
        none, none, none⟩], [⟨1, 5, none, 1⟩], [], []⟩ 1 (Except.error ()) true true
      0).db 1).map (fun x => x.status) = some RaffleStatus.pending :=
  C7_failure_rolls_back_to_pending
    ⟨[], [⟨1, 1, none, CurrencyType.stars, 10, 20, RaffleStatus.pending, none, none,
      none, none, none⟩], [⟨1, 5, none, 1⟩], [], []⟩ 1 (Except.error ()) true true 0
    ⟨1, 1, none, CurrencyType.stars, 10, 20, RaffleStatus.pending, none, none,
      none, none, none⟩ rfl (Or.inl (by decide))

/-- C5: Scenario A end to end. Three joins assign numbers 1..3; the
split is total 30, commission 6, prize 24; with the oracle returning 2
the raffle finishes with participant #2 (user 2) as winner and prize 24;
confirming the resulting payout request credits 24 stars to the winner's
balance and records a RaffleWin transaction of 24. -/
theorem C5_scenario_a :
    add_participant dbA0 1 1 none = Except.ok (dbA1, ⟨1, 1, none, 1⟩) ∧
    add_participant dbA1 1 2 none = Except.ok (dbA2, ⟨1, 2, none, 2⟩) ∧
    add_participant dbA2 1 3 none = Except.ok (dbA3, ⟨1, 3, none, 3⟩) ∧
    raffleSettlement 10 CurrencyType.stars 20 3 = ⟨30, 6, 24⟩ ∧
    (execute_raffle dbA3 1 (Except.ok 2) true true 5).outcome =
      ExecOutcome.completed 2 24 ∧
    (get_raffle_by_id (execute_raffle dbA3 1 (Except.ok 2) true true 5).db 1).map
      (fun x => (x.status, x.winner_id, x.prize_amount)) =
      some (RaffleStatus.finished, some 2, some 24) ∧
    ((confirmPayout (execute_raffle dbA3 1 (Except.ok 2) true true 5).db 1
        "chg").users.find? (fun u => decide (u.id = 2))).map
      (fun u => u.balance_stars) = some 24 ∧
    (∃ t ∈ (confirmPayout (execute_raffle dbA3 1 (Except.ok 2) true true 5).db 1
        "chg").transactions,
      t.user_id = 2 ∧ t.type = TransactionType.raffleWin ∧ t.amount = 24) := by
  have hsettle : raffleSettlement 10 CurrencyType.stars 20 3 = ⟨30, 6, 24⟩ := by
    rw [raffleSettlement_stars]
    have h1 : ((10 : ℚ) * ((3 : ℕ) : ℚ)) = 30 := by norm_num
    have h2 : ((30 : ℚ) * 20 / 100) = 6 := by norm_num
    rw [h1, h2]
    have h3 : pyTrunc 6 = 6 := by
      rw [pyTrunc_of_nonneg (by norm_num)]
      norm_num
    have h4 : pyTrunc 30 = 30 := by
      rw [pyTrunc_of_nonneg (by norm_num)]
      norm_num
    rw [h3, h4]
    norm_num [Settlement.mk.injEq]
  have he : execute_raffle dbA3 1 (Except.ok 2) true true 5 =
      ⟨create_payout_request
        (set_raffle_winner (update_raffle_status dbA3 1 RaffleStatus.active 5) 1 2 2
          24 5) 1 2 24 CurrencyType.stars, true, ExecOutcome.completed 2 24⟩ := by
    unfold execute_raffle
    rw [show get_raffle_by_id dbA3 1 =
      some ⟨1, 3, none, CurrencyType.stars, 10, 20, RaffleStatus.pending, none, none,
        none, none, none⟩ from rfl]
    dsimp only
    rw [if_neg (by decide)]
    rw [show get_raffle_participants dbA3 1 =
      [⟨1, 1, none, 1⟩, ⟨1, 2, none, 2⟩, ⟨1, 3, none, 3⟩] from by decide]
    rw [if_neg (by decide)]
    rw [show pythonIndex
      ([⟨1, 1, none, 1⟩, ⟨1, 2, none, 2⟩, ⟨1, 3, none, 3⟩] : List ParticipantRow)
      ((2 : ℤ) - 1) = some ⟨1, 2, none, 2⟩ from by decide]
    rw [show ([⟨1, 1, none, 1⟩, ⟨1, 2, none, 2⟩, ⟨1, 3, none, 3⟩] :
      List ParticipantRow).length = 3 from rfl]
    rw [hsettle]
    dsimp only
    rw [if_neg (by decide)]
    rw [if_pos rfl, if_pos rfl]
  refine ⟨rfl, rfl, rfl, hsettle, ?_, ?_, ?_, ?_⟩
  · rw [he]
  · rw [he]
    decide
  · rw [he]
    decide
  · rw [he]
    decide
